import Mathlib

/-!
Shallow embedding of the switch-toggle fan-out subsystem of the Rhapsody24
control-plane service (src/services/switchboard_api_service.py together with
the CRUD accessors it calls, src/crud/switch_crud.py and
src/crud/switchboard_crud.py), and proofs about it.

Python exceptions (FastAPI HTTPException, IndexError, TypeError,
AttributeError, ValueError) are modelled as an explicit error value threaded
through the computation; a function that can raise returns its normal result
together with an `Option PyErr` (or an `Except PyErr _`).  Python `dict`s,
which iterate in insertion order, are modelled as association lists in
insertion order.
-/

namespace Rhapsody

/-- A Python exception escaping a function of the subsystem. -/
inductive PyErr
  | http (status : Nat) (detail : String)
  | indexError
  | typeError
  | attributeError
  | valueError
deriving DecidableEq, Repr

/-- Row of the `switchs` table (src/database/models.py). -/
structure Switch where
  id : Int
  name : String
  position : Int
  state : Bool
  locked : Bool
  switchboard_id : String
deriving DecidableEq, Repr

/-- Row of the `switchboards` table (src/database/models.py); only the fields
the subsystem reads. -/
structure Switchboard where
  id : String
  name : String
  ip_address : String
deriving DecidableEq, Repr

/-- The persistent store: the two tables the subsystem touches. -/
structure DB where
  switchs : List Switch
  switchboards : List Switchboard
deriving DecidableEq, Repr

/-- `switch_crud.get_switch(db, switch_id=...)`: first row with that id. -/
def get_switch_by_id (db : DB) (switch_id : Int) : Option Switch :=
  db.switchs.find? (fun s => s.id == switch_id)

/-- `switch_crud.get_switch(db, switchboard_id=..., position=...)`. -/
def get_switch_by_pos (db : DB) (switchboard_id : String) (position : Int) : Option Switch :=
  db.switchs.find? (fun s => s.switchboard_id == switchboard_id && s.position == position)

/-- `switchboard_crud.get_switchboard`: raises HTTPException 404 when the row
is absent (it never returns None). -/
def get_switchboard (db : DB) (switchboard_id : String) : Except PyErr Switchboard :=
  match db.switchboards.find? (fun b => b.id == switchboard_id) with
  | none => .error (.http 404 "Switchboard not found")
  | some b => .ok b

/-- SQLAlchemy row mutation `db_switch.state = state`: the first row with the
given id is updated in place. -/
def setStateFirst : List Switch → Int → Bool → List Switch
  | [], _, _ => []
  | s :: rest, i, b =>
    if s.id == i then { s with state := b } :: rest else s :: setStateFirst rest i b

/-- `switch_crud.toggle`: 404 when the switch is absent, 403 when it is
locked, otherwise sets `state` and commits. -/
def toggle (db : DB) (switch_id : Int) (state : Bool) : Except PyErr DB :=
  match db.switchs.find? (fun s => s.id == switch_id) with
  | none => .error (.http 404 s!"Switch with ID {switch_id} not found.")
  | some sw =>
    if sw.locked = false then
      .ok { db with switchs := setStateFirst db.switchs switch_id state }
    else
      .error (.http 403 "Switch state is locked and cannot be updated.")

/-- The fixed nickname table (module-level constant `switchs_nicknames`). -/
def switchs_nicknames : List String :=
  ["relay1", "relay2", "relay3", "relay4", "relay5", "relay6", "relay7", "relay8"]

/-- Python list subscription `xs[i]`: negative indices count from the end;
`none` models an IndexError. -/
def pyGet {α : Type} (xs : List α) (i : Int) : Option α :=
  if i < 0 then
    if (xs.length : Int) + i < 0 then none
    else xs.get? ((xs.length : Int) + i).toNat
  else xs.get? i.toNat

/-- Python `list.index`: position of the first occurrence; `none` models a
ValueError. -/
def pyIndex : List String → String → Option Nat
  | [], _ => none
  | x :: rest, s => if x == s then some 0 else (pyIndex rest s).map (· + 1)

/-- The inner dict of one switchboard: nickname to state string, in insertion
order. -/
abbrev Inner := List (String × String)

/-- The grouped payload `switchs_by_switchboard`: switchboard id to inner
dict, in insertion order. -/
abbrev Payload := List (String × Inner)

/-- Python dict assignment `m[k] = v` on the inner dict: overwrite in place
or append. -/
def setAssoc : Inner → String → String → Inner
  | [], k, v => [(k, v)]
  | (k0, v0) :: rest, k, v =>
    if k0 == k then (k, v) :: rest else (k0, v0) :: setAssoc rest k v

/-- `switchs_by_switchboard[bid][nick] = st` on the defaultdict of
defaultdicts: create the switchboard entry if missing, then assign. -/
def setNested : Payload → String → String → String → Payload
  | [], bid, nick, st => [(bid, [(nick, st)])]
  | (b, inner) :: rest, bid, nick, st =>
    if b == bid then (b, setAssoc inner nick st) :: rest
    else (b, inner) :: setNested rest bid nick st

/-- Python `m.get(k)` / `m[k]` lookup on an association list. -/
def getAssoc {β : Type} (m : List (String × β)) (k : String) : Option β :=
  (m.find? (fun e => e.1 == k)).map (fun e => e.2)

/-- Loop body of `build_switchs_by_switchboard`, threading the accumulated
payload and error list.  Note the source appends the locked error but does
not `continue`, and `get_switchboard` raises (rather than returning None) for
a missing switchboard, so the `is None` branch of the source is dead and the
batch aborts. -/
def buildAux (db : DB) : List (Int × Bool) → Payload → List String → Payload × List String × Option PyErr
  | [], acc, errs => (acc, errs, none)
  | (switch_id, state) :: rest, acc, errs =>
    match get_switch_by_id db switch_id with
    | none => buildAux db rest acc (errs ++ [s!"Switch with id {switch_id} not found."])
    | some sw =>
      let errs1 := if sw.locked then
        errs ++ [s!"Switch with id {switch_id} is locked and cannot be toggled."]
      else errs
      match get_switchboard db sw.switchboard_id with
      | .error e => (acc, errs1, some e)
      | .ok board =>
        match pyGet switchs_nicknames (sw.position - 1) with
        | none => (acc, errs1, some .indexError)
        | some nick =>
          buildAux db rest (setNested acc board.id nick (if state then "ON" else "OFF")) errs1

/-- `build_switchs_by_switchboard`: groups the batch per switchboard. -/
def build_switchs_by_switchboard (db : DB) (request : List (Int × Bool)) :
    Payload × List String × Option PyErr :=
  buildAux db request [] []

/-- Outcome of one `httpx` POST, supplied as an oracle: an HTTP status code,
or a network error / timeout with its message. -/
inductive TransportOutcome
  | status (code : Nat)
  | netErr (msg : String)

/-- The HTTP transport oracle: device ip address and JSON body to outcome. -/
abbrev Transport := String → Inner → TransportOutcome

/-- The per-switchboard result dict built by `send_switchboard_request`. -/
structure DispatchResult where
  switchboard_id : String
  status : String
  error : Option String
  payload_sent : Inner
deriving DecidableEq, Repr

/-- `send_switchboard_request`: resolves the switchboard (the crud raises 404
when absent, before any network call), POSTs the body, classifies the
outcome; `raise_for_status` makes any non-2xx code a failure. -/
def send_switchboard_request (t : Transport) (db : DB) (switchboard_id : String)
    (switchs : Inner) : Except PyErr DispatchResult :=
  match get_switchboard db switchboard_id with
  | .error e => .error e
  | .ok board =>
    match t board.ip_address switchs with
    | .status code =>
      if 200 ≤ code ∧ code < 300 then
        .ok { switchboard_id := switchboard_id, status := "success",
              error := none, payload_sent := switchs }
      else
        .ok { switchboard_id := switchboard_id, status := "failed",
              error := some s!"HTTP status error {code}", payload_sent := switchs }
    | .netErr msg =>
      .ok { switchboard_id := switchboard_id, status := "failed",
            error := some msg, payload_sent := switchs }

/-- The `asyncio.gather` over one request per payload entry: the first
exception raised by a task propagates. -/
def sendAll (t : Transport) (db : DB) : Payload → Except PyErr (List DispatchResult)
  | [] => .ok []
  | (bid, switchs) :: rest =>
    match send_switchboard_request t db bid switchs with
    | .error e => .error e
    | .ok r =>
      match sendAll t db rest with
      | .error e => .error e
      | .ok rs => .ok (r :: rs)

/-- `send_multiple_switchboard_requests`: gather then partition the results
by status. -/
def send_multiple_switchboard_requests (t : Transport) (db : DB) (p : Payload) :
    Except PyErr (List DispatchResult × List DispatchResult) :=
  match sendAll t db p with
  | .error e => .error e
  | .ok results =>
    .ok (results.filter (fun r => r.status == "success"),
         results.filter (fun r => r.status != "success"))

/-- Inner loop of `update_database` over one successful switchboard's dict.
`switchs_nicknames.index(switch)` raises ValueError on an unknown nickname;
`switch_crud.toggle` raises on a locked or vanished switch; the `else` branch
raises TypeError while formatting its message (it subscripts the nickname
list with a string). -/
def updateInner : DB → String → Inner → List String → DB × List String × Option PyErr
  | db, _, [], errs => (db, errs, none)
  | db, bid, (nick, st) :: rest, errs =>
    match pyIndex switchs_nicknames nick with
    | none => (db, errs, some .valueError)
    | some idx =>
      match get_switch_by_pos db bid ((idx : Int) + 1) with
      | none =>
        updateInner db bid rest
          (errs ++ [s!"Switch associated with nickname {nick} associated with switchboard {bid} not found in the database."])
      | some sw =>
        if st == "ON" then
          match toggle db sw.id true with
          | .error e => (db, errs, some e)
          | .ok db2 => updateInner db2 bid rest errs
        else if st == "OFF" then
          match toggle db sw.id false with
          | .error e => (db, errs, some e)
          | .ok db2 => updateInner db2 bid rest errs
        else
          (db, errs, some .typeError)

/-- Outer loop of `update_database` over the successful results.
`switchs_by_switchboard.get(id)` returns None when the id is absent, and
`.items()` on None raises AttributeError. -/
def updateOuter : DB → Payload → List DispatchResult → List String → DB × List String × Option PyErr
  | db, _, [], errs => (db, errs, none)
  | db, p, r :: rest, errs =>
    match getAssoc p r.switchboard_id with
    | none => (db, errs, some .attributeError)
    | some switchs =>
      match updateInner db r.switchboard_id switchs errs with
      | (db2, errs2, none) => updateOuter db2 p rest errs2
      | (db2, errs2, some e) => (db2, errs2, some e)

/-- `update_database`: reconcile persisted state for the successful
switchboards only. -/
def update_database (db : DB) (p : Payload) (success : List DispatchResult) :
    DB × List String × Option PyErr :=
  updateOuter db p success []

/-- An element of the list returned by `process_toggle_request`: building
errors are strings, but dispatch errors are appended as whole result dicts. -/
inductive ErrEntry
  | str (s : String)
  | dict (d : DispatchResult)
deriving DecidableEq, Repr

/-- `process_toggle_request`: group, dispatch, reconcile; the value returned
by `update_database` is discarded, and the report is the building errors
followed by the dispatch failure dicts. -/
def process_toggle_request (t : Transport) (db : DB) (request : List (Int × Bool)) :
    Except PyErr (DB × List ErrEntry) :=
  match build_switchs_by_switchboard db request with
  | (_, _, some e) => .error e
  | (p, building_errors, none) =>
    match send_multiple_switchboard_requests t db p with
    | .error e => .error e
    | .ok (success, request_errors) =>
      match update_database db p success with
      | (_, _, some e) => .error e
      | (db2, _, none) =>
        .ok (db2, building_errors.map ErrEntry.str ++ request_errors.map ErrEntry.dict)

/-- Two orchestration calls in a row with the same request. -/
def processTwice (t : Transport) (db : DB) (request : List (Int × Bool)) :
    Except PyErr (DB × List ErrEntry) :=
  match process_toggle_request t db request with
  | .error e => .error e
  | .ok (db2, _) => process_toggle_request t db2 request

/-! Concrete stores and transports used to evaluate the model. -/

/-- One locked switch at position 1 on an existing switchboard. -/
def dbLocked : DB :=
  { switchs := [{ id := 1, name := "s1", position := 1, state := false,
                  locked := true, switchboard_id := "b1" }],
    switchboards := [{ id := "b1", name := "B1", ip_address := "10.0.0.1" }] }

/-- One unlocked switch at position 1 on an existing switchboard. -/
def dbOne : DB :=
  { switchs := [{ id := 1, name := "s1", position := 1, state := false,
                  locked := false, switchboard_id := "b1" }],
    switchboards := [{ id := "b1", name := "B1", ip_address := "10.0.0.1" }] }

/-- One unlocked switch whose position is 0, outside the 1..8 range. -/
def dbPos0 : DB :=
  { switchs := [{ id := 1, name := "s1", position := 0, state := false,
                  locked := false, switchboard_id := "b1" }],
    switchboards := [{ id := "b1", name := "B1", ip_address := "10.0.0.1" }] }

/-- Switch 1 points to a switchboard id absent from the store; switch 2 is
well formed. -/
def dbGhost : DB :=
  { switchs := [{ id := 1, name := "s1", position := 1, state := false,
                  locked := false, switchboard_id := "ghost" },
                { id := 2, name := "s2", position := 2, state := false,
                  locked := false, switchboard_id := "b1" }],
    switchboards := [{ id := "b1", name := "B1", ip_address := "10.0.0.1" }] }

/-- A transport on which every request succeeds with status 200. -/
def tOK : Transport := fun _ _ => .status 200

/-- A transport on which every request fails with a network error. -/
def tBoom : Transport := fun _ _ => .netErr "boom"

/-- The dispatch failure dict produced for dbOne's switchboard on tBoom. -/
def failedB1 : DispatchResult :=
  { switchboard_id := "b1", status := "failed", error := some "boom",
    payload_sent := [("relay1", "ON")] }

/-- A successful dispatch result for switchboard b1 carrying relay8 ON. -/
def successB1relay8 : DispatchResult :=
  { switchboard_id := "b1", status := "success", error := none,
    payload_sent := [("relay8", "ON")] }

/-- Dead-simple concrete store for the amended-C8 witness: a switch at
position 9. -/
def dbPos9 : DB :=
  { switchs := [{ id := 1, name := "s1", position := 9, state := false,
                  locked := false, switchboard_id := "b1" }],
    switchboards := [{ id := "b1", name := "B1", ip_address := "10.0.0.1" }] }

/-- Two switchboards A and B, one unlocked switch on each, both off. -/
def dbAB : DB :=
  { switchs := [{ id := 1, name := "sA", position := 1, state := false,
                  locked := false, switchboard_id := "A" },
                { id := 2, name := "sB", position := 1, state := false,
                  locked := false, switchboard_id := "B" }],
    switchboards := [{ id := "A", name := "A", ip_address := "10.0.0.1" },
                     { id := "B", name := "B", ip_address := "10.0.0.2" }] }

/-- dbAB after switch 1 (on switchboard A) has been turned on. -/
def dbABafter : DB :=
  { switchs := [{ id := 1, name := "sA", position := 1, state := true,
                  locked := false, switchboard_id := "A" },
                { id := 2, name := "sB", position := 1, state := false,
                  locked := false, switchboard_id := "B" }],
    switchboards := [{ id := "A", name := "A", ip_address := "10.0.0.1" },
                     { id := "B", name := "B", ip_address := "10.0.0.2" }] }

/-- Grouped payload turning relay1 on for both switchboards. -/
def payloadAB : Payload := [("A", [("relay1", "ON")]), ("B", [("relay1", "ON")])]

/-- A successful dispatch outcome for switchboard A only. -/
def successA : DispatchResult :=
  { switchboard_id := "A", status := "success", error := none,
    payload_sent := [("relay1", "ON")] }

/-- Two unlocked switches at positions 1 and 2 on the same switchboard. -/
def dbPair : DB :=
  { switchs := [{ id := 1, name := "s1", position := 1, state := false,
                  locked := false, switchboard_id := "b1" },
                { id := 2, name := "s2", position := 2, state := false,
                  locked := false, switchboard_id := "b1" }],
    switchboards := [{ id := "b1", name := "B1", ip_address := "10.0.0.1" }] }

/-- Two unlocked switches that share position 1 on the same switchboard, so
both map to the nickname relay1. -/
def dbDup : DB :=
  { switchs := [{ id := 1, name := "s1", position := 1, state := false,
                  locked := false, switchboard_id := "b1" },
                { id := 2, name := "s2", position := 1, state := false,
                  locked := false, switchboard_id := "b1" }],
    switchboards := [{ id := "b1", name := "B1", ip_address := "10.0.0.1" }] }

/-- A successful dispatch result for switchboard b1 carrying relay1 ON. -/
def successB1on : DispatchResult :=
  { switchboard_id := "b1", status := "success", error := none,
    payload_sent := [("relay1", "ON")] }

/-- The fields of a switch row other than `state`. -/
def frameProj (s : Switch) : Int × String × Int × Bool × String :=
  (s.id, s.name, s.position, s.locked, s.switchboard_id)

/-- All values of an inner dict and of a payload are the literals "ON" or
"OFF". -/
def PayloadOnOff (p : Payload) : Prop :=
  ∀ e ∈ p, ∀ e2 ∈ e.2, e2.2 = "ON" ∨ e2.2 = "OFF"

/-! Lemmas about the embedded operations. -/

/-- For positions beyond 8 or below -7 the effective index is out of range
on both ends of the 8-element nickname table, so subscription raises. -/
lemma pyGet_nicknames_none (p : Int) (h : 8 < p ∨ p < -7) :
    pyGet switchs_nicknames (p - 1) = none := by
  have hl : ((switchs_nicknames.length : Int)) = 8 := rfl
  have hn : switchs_nicknames.length = 8 := rfl
  unfold pyGet
  rcases h with h | h
  · rw [if_neg (by omega : ¬ (p - 1 : Int) < 0)]
    exact List.get?_eq_none.mpr (by omega)
  · rw [if_pos (by omega : (p - 1 : Int) < 0),
        if_pos (by omega : (switchs_nicknames.length : Int) + (p - 1) < 0)]

/-- For positions in -7..0 the effective index wraps to the end of the
table: `xs[p - 1]` is `xs[p + 7]` counted from the front, with no error. -/
lemma pyGet_nicknames_neg (p : Int) (h1 : -7 ≤ p) (h2 : p ≤ 0) :
    pyGet switchs_nicknames (p - 1) = switchs_nicknames.get? (p + 7).toNat := by
  have hl : ((switchs_nicknames.length : Int)) = 8 := rfl
  unfold pyGet
  rw [if_pos (by omega : (p - 1 : Int) < 0),
      if_neg (by omega : ¬ (switchs_nicknames.length : Int) + (p - 1) < 0)]
  congr 1
  omega

lemma nick_roundtrip (p : Int) (h1 : 1 ≤ p) (h2 : p ≤ 8) :
    ∃ nick, pyGet switchs_nicknames (p - 1) = some nick
      ∧ pyIndex switchs_nicknames nick = some (p - 1).toNat
      ∧ ((p - 1).toNat : Int) + 1 = p := by
  interval_cases p <;> exact ⟨_, rfl, rfl, rfl⟩

lemma setStateFirst_self (l : List Switch) (i : Int) (sw : Switch)
    (hf : l.find? (fun x => x.id == i) = some sw) :
    setStateFirst l i sw.state = l := by
  induction l with
  | nil => exact absurd hf (by simp)
  | cons s rest ih =>
    cases hp : (s.id == i) with
    | true =>
      simp only [List.find?_cons, hp] at hf
      have hs : s = sw := by injection hf
      unfold setStateFirst
      rw [if_pos hp, ← hs]
    | false =>
      simp only [List.find?_cons, hp] at hf
      unfold setStateFirst
      rw [if_neg (by simp [hp]), ih hf]

lemma find?_setStateFirst (l : List Switch) (i : Int) (b : Bool) (sw : Switch)
    (hf : l.find? (fun x => x.id == i) = some sw) :
    (setStateFirst l i b).find? (fun x => x.id == i) = some { sw with state := b } := by
  induction l with
  | nil => exact absurd hf (by simp)
  | cons s rest ih =>
    cases hp : (s.id == i) with
    | true =>
      simp only [List.find?_cons, hp] at hf
      have hs : s = sw := by injection hf
      unfold setStateFirst
      rw [if_pos hp]
      have hp2 : ((fun x => x.id == i) ({ s with state := b } : Switch)) = true := hp
      rw [List.find?_cons_of_pos rest hp2, hs]
    | false =>
      simp only [List.find?_cons, hp] at hf
      unfold setStateFirst
      rw [if_neg (by simp [hp])]
      have hp2 : ¬ ((fun x => x.id == i) s) = true := by simp [hp]
      rw [List.find?_cons_of_neg (setStateFirst rest i b) hp2]
      exact ih hf

lemma mem_setAssoc (m : Inner) (k v : String) (e : String × String)
    (h : e ∈ setAssoc m k v) : e = (k, v) ∨ e ∈ m := by
  induction m with
  | nil =>
    simp only [setAssoc, List.mem_singleton] at h
    exact Or.inl h
  | cons kv rest ih =>
    obtain ⟨k0, v0⟩ := kv
    simp only [setAssoc] at h
    by_cases hk : (k0 == k) = true
    · rw [if_pos hk] at h
      rcases List.mem_cons.mp h with h1 | h1
      · exact Or.inl h1
      · exact Or.inr (List.mem_cons_of_mem _ h1)
    · rw [if_neg hk] at h
      rcases List.mem_cons.mp h with h1 | h1
      · exact Or.inr (h1 ▸ List.mem_cons_self _ _)
      · rcases ih h1 with h2 | h2
        · exact Or.inl h2
        · exact Or.inr (List.mem_cons_of_mem _ h2)

lemma payloadOnOff_setNested (p : Payload) (bid nick v : String)
    (hp : PayloadOnOff p) (hv : v = "ON" ∨ v = "OFF") :
    PayloadOnOff (setNested p bid nick v) := by
  induction p with
  | nil =>
    intro e he e2 he2
    simp only [setNested, List.mem_singleton] at he
    subst he
    simp only [List.mem_singleton] at he2
    subst he2
    exact hv
  | cons b rest ih =>
    obtain ⟨b0, inner⟩ := b
    intro e he e2 he2
    simp only [setNested] at he
    by_cases hb : (b0 == bid) = true
    · rw [if_pos hb] at he
      rcases List.mem_cons.mp he with h1 | h1
      · subst h1
        rcases mem_setAssoc inner nick v e2 he2 with h2 | h2
        · rw [h2]; exact hv
        · exact hp (b0, inner) (List.mem_cons_self _ _) e2 h2
      · exact hp e (List.mem_cons_of_mem _ h1) e2 he2
    · rw [if_neg hb] at he
      rcases List.mem_cons.mp he with h1 | h1
      · subst h1
        exact hp (b0, inner) (List.mem_cons_self _ _) e2 he2
      · exact ih (fun e' he' => hp e' (List.mem_cons_of_mem _ he')) e h1 e2 he2

lemma payloadOnOff_buildAux (db : DB) (req : List (Int × Bool)) :
    ∀ (acc : Payload) (errs : List String), PayloadOnOff acc →
      PayloadOnOff (buildAux db req acc errs).1 := by
  induction req with
  | nil => intro acc errs h; exact h
  | cons pair rest ih =>
    obtain ⟨sid, st⟩ := pair
    intro acc errs h
    unfold buildAux
    cases hs : get_switch_by_id db sid with
    | none => dsimp only; exact ih _ _ h
    | some sw =>
      dsimp only
      cases hb : get_switchboard db sw.switchboard_id with
      | error e => dsimp only; exact h
      | ok board =>
        dsimp only
        cases hn : pyGet switchs_nicknames (sw.position - 1) with
        | none => exact h
        | some nick =>
          dsimp only
          exact ih _ _ (payloadOnOff_setNested acc board.id nick _ h (by cases st <;> simp))

lemma getAssoc_mem {β : Type} (m : List (String × β)) (k : String) (v : β)
    (h : getAssoc m k = some v) : ∃ e ∈ m, e.2 = v := by
  unfold getAssoc at h
  cases hf : m.find? (fun e => e.1 == k) with
  | none => rw [hf] at h; exact absurd h (by simp)
  | some e =>
    rw [hf] at h
    simp only [Option.map_some'] at h
    exact ⟨e, List.mem_of_find?_eq_some hf, by injection h⟩

lemma toggle_error_http (db : DB) (i : Int) (b : Bool) (e : PyErr)
    (h : toggle db i b = .error e) : e ≠ PyErr.typeError := by
  unfold toggle at h
  cases hf : db.switchs.find? (fun s => s.id == i) with
  | none =>
    rw [hf] at h
    dsimp only at h
    injection h with h1
    exact fun hc => by rw [hc] at h1; exact PyErr.noConfusion h1
  | some sw =>
    rw [hf] at h
    dsimp only at h
    by_cases hl : sw.locked = false
    · rw [if_pos hl] at h; exact absurd h (by simp)
    · rw [if_neg hl] at h
      injection h with h1
      exact fun hc => by rw [hc] at h1; exact PyErr.noConfusion h1

lemma updateInner_no_typeError (bid : String) (inner : Inner) :
    ∀ (db : DB) (errs : List String),
      (∀ e ∈ inner, e.2 = "ON" ∨ e.2 = "OFF") →
      (updateInner db bid inner errs).2.2 ≠ some PyErr.typeError := by
  induction inner with
  | nil => intro db errs _; simp [updateInner]
  | cons kv rest ih =>
    obtain ⟨nick, st⟩ := kv
    intro db errs hv
    unfold updateInner
    cases hx : pyIndex switchs_nicknames nick with
    | none => simp
    | some idx =>
      dsimp only
      cases hg : get_switch_by_pos db bid ((idx : Int) + 1) with
      | none => exact ih db _ (fun e he => hv e (List.mem_cons_of_mem _ he))
      | some sw =>
        dsimp only
        rcases hv (nick, st) (List.mem_cons_self _ _) with hst | hst
        · simp only at hst
          subst hst
          rw [if_pos (show (("ON" : String) == "ON") = true from rfl)]
          cases ht : toggle db sw.id true with
          | error e =>
            dsimp only
            intro hc
            exact toggle_error_http db sw.id true e ht (by injection hc)
          | ok db2 => dsimp only; exact ih db2 _ (fun e he => hv e (List.mem_cons_of_mem _ he))
        · simp only at hst
          subst hst
          rw [if_neg (show ¬ (("OFF" : String) == "ON") = true from by decide),
              if_pos (show (("OFF" : String) == "OFF") = true from rfl)]
          cases ht : toggle db sw.id false with
          | error e =>
            dsimp only
            intro hc
            exact toggle_error_http db sw.id false e ht (by injection hc)
          | ok db2 => dsimp only; exact ih db2 _ (fun e he => hv e (List.mem_cons_of_mem _ he))

lemma updateOuter_no_typeError (p : Payload) (hp : PayloadOnOff p) :
    ∀ (success : List DispatchResult) (db : DB) (errs : List String),
      (updateOuter db p success errs).2.2 ≠ some PyErr.typeError := by
  intro success
  induction success with
  | nil => intro db errs; simp [updateOuter]
  | cons r rest ih =>
    intro db errs
    unfold updateOuter
    cases hg : getAssoc p r.switchboard_id with
    | none => simp
    | some switchs =>
      dsimp only
      have hin : ∀ e ∈ switchs, e.2 = "ON" ∨ e.2 = "OFF" := by
        obtain ⟨e0, he0, heq⟩ := getAssoc_mem p r.switchboard_id switchs hg
        intro e he
        exact hp e0 he0 e (heq ▸ he)
      rcases hu : updateInner db r.switchboard_id switchs errs with ⟨db2, errs2, ab⟩
      cases ab with
      | none => dsimp only; exact ih db2 errs2
      | some e =>
        dsimp only
        have h2 := updateInner_no_typeError r.switchboard_id switchs db errs hin
        rw [hu] at h2
        intro hc
        exact h2 hc

lemma map_frameProj_setStateFirst (l : List Switch) (i : Int) (b : Bool) :
    (setStateFirst l i b).map frameProj = l.map frameProj := by
  induction l with
  | nil => rfl
  | cons s rest ih =>
    unfold setStateFirst
    by_cases hp : (s.id == i) = true
    · rw [if_pos hp]
      simp [frameProj]
    · rw [if_neg hp]
      simp only [List.map_cons, ih]

lemma setStateFirst_get? (l : List Switch) (i : Int) (b : Bool) (j : Nat) :
    (setStateFirst l i b).get? j = l.get? j ∨
    (∃ s, l.get? j = some s ∧ s.id = i ∧
      (setStateFirst l i b).get? j = some { s with state := b }) := by
  induction l generalizing j with
  | nil => left; rfl
  | cons s rest ih =>
    unfold setStateFirst
    by_cases hp : (s.id == i) = true
    · rw [if_pos hp]
      cases j with
      | zero => right; exact ⟨s, rfl, eq_of_beq hp, rfl⟩
      | succ k => left; rfl
    · rw [if_neg hp]
      cases j with
      | zero => left; rfl
      | succ k =>
        rcases ih k with h | ⟨s2, h1, h2, h3⟩
        · left; exact h
        · right; exact ⟨s2, h1, h2, h3⟩

lemma id_pos_unique (l : List Switch) (hnd : (l.map (fun s => s.id)).Nodup)
    (j k : Nat) (a c : Switch) (hj : l.get? j = some a) (hk : l.get? k = some c)
    (hid : a.id = c.id) : j = k := by
  have hj2 : (l.map (fun s => s.id)).get? j = some a.id := by
    rw [List.get?_map, hj]; rfl
  have hk2 : (l.map (fun s => s.id)).get? k = some c.id := by
    rw [List.get?_map, hk]; rfl
  have hlen : j < (l.map (fun s => s.id)).length := by
    rw [List.get?_eq_getElem?] at hj2
    exact (List.getElem?_eq_some.mp hj2).1
  apply List.getElem?_inj hlen hnd
  rw [← List.get?_eq_getElem?, ← List.get?_eq_getElem?, hj2, hk2, hid]

lemma ids_of_frameProj (l1 l0 : List Switch)
    (h : l1.map frameProj = l0.map frameProj) :
    l1.map (fun s => s.id) = l0.map (fun s => s.id) := by
  have h2 := congrArg (List.map Prod.fst) h
  rw [List.map_map, List.map_map] at h2
  exact h2

lemma toggle_ok_shape (db : DB) (i : Int) (b : Bool) (db2 : DB)
    (h : toggle db i b = .ok db2) :
    db2.switchs = setStateFirst db.switchs i b := by
  unfold toggle at h
  cases hf : db.switchs.find? (fun s => s.id == i) with
  | none => rw [hf] at h; dsimp only at h; exact absurd h (by simp)
  | some sw =>
    rw [hf] at h
    dsimp only at h
    by_cases hl : sw.locked = false
    · rw [if_pos hl] at h
      injection h with h2
      rw [← h2]
    · rw [if_neg hl] at h
      exact absurd h (by simp)

lemma toggle_frame_step (db0 : DB) (boards : List String)
    (hnd : (db0.switchs.map (fun s => s.id)).Nodup)
    (db : DB) (sw : Switch) (b : Bool)
    (hmem : sw ∈ db.switchs) (hboard : sw.switchboard_id ∈ boards)
    (h1 : db.switchs.map frameProj = db0.switchs.map frameProj)
    (h2 : ∀ j : Nat, db.switchs.get? j = db0.switchs.get? j ∨
        ∃ s, db0.switchs.get? j = some s ∧ s.switchboard_id ∈ boards) :
    (setStateFirst db.switchs sw.id b).map frameProj = db0.switchs.map frameProj ∧
    ∀ j : Nat, (setStateFirst db.switchs sw.id b).get? j = db0.switchs.get? j ∨
      ∃ s, db0.switchs.get? j = some s ∧ s.switchboard_id ∈ boards := by
  refine ⟨by rw [map_frameProj_setStateFirst, h1], ?_⟩
  intro j
  rcases setStateFirst_get? db.switchs sw.id b j with h | ⟨s2, hs2, hsid, hnew⟩
  · rw [h]; exact h2 j
  · right
    obtain ⟨k, hk⟩ := List.mem_iff_get?.mp hmem
    have hndb : (db.switchs.map (fun s => s.id)).Nodup := by
      rw [ids_of_frameProj db.switchs db0.switchs h1]; exact hnd
    have hjk : j = k := id_pos_unique db.switchs hndb j k s2 sw hs2 hk hsid
    subst hjk
    have hs2sw : s2 = sw := by rw [hs2] at hk; injection hk
    subst hs2sw
    rcases h2 j with he | he
    · exact ⟨s2, by rw [← he, hs2], hboard⟩
    · exact he

lemma updateInner_frame (db0 : DB) (boards : List String)
    (hnd : (db0.switchs.map (fun s => s.id)).Nodup) (bid : String) (hbid : bid ∈ boards)
    (inner : Inner) :
    ∀ (db : DB) (errs : List String),
      db.switchs.map frameProj = db0.switchs.map frameProj →
      (∀ j : Nat, db.switchs.get? j = db0.switchs.get? j ∨
        ∃ s, db0.switchs.get? j = some s ∧ s.switchboard_id ∈ boards) →
      ((updateInner db bid inner errs).1.switchs.map frameProj = db0.switchs.map frameProj ∧
       ∀ j : Nat, (updateInner db bid inner errs).1.switchs.get? j = db0.switchs.get? j ∨
        ∃ s, db0.switchs.get? j = some s ∧ s.switchboard_id ∈ boards) := by
  induction inner with
  | nil => intro db errs ha hb; exact ⟨ha, hb⟩
  | cons kv rest ih =>
    obtain ⟨nick, st⟩ := kv
    intro db errs ha hb
    unfold updateInner
    cases hx : pyIndex switchs_nicknames nick with
    | none => exact ⟨ha, hb⟩
    | some idx =>
      dsimp only
      cases hg : get_switch_by_pos db bid ((idx : Int) + 1) with
      | none => exact ih db _ ha hb
      | some sw =>
        dsimp only
        unfold get_switch_by_pos at hg
        have hmem : sw ∈ db.switchs := List.mem_of_find?_eq_some hg
        have hpred := List.find?_some hg
        have hboard : sw.switchboard_id = bid := by
          have := (Bool.and_eq_true _ _).mp hpred
          exact eq_of_beq this.1
        have hstep : ∀ (b : Bool) (db2 : DB), toggle db sw.id b = .ok db2 →
            (db2.switchs.map frameProj = db0.switchs.map frameProj ∧
             ∀ j : Nat, db2.switchs.get? j = db0.switchs.get? j ∨
               ∃ s, db0.switchs.get? j = some s ∧ s.switchboard_id ∈ boards) := by
          intro b db2 hok
          rw [toggle_ok_shape db sw.id b db2 hok]
          exact toggle_frame_step db0 boards hnd db sw b hmem (hboard ▸ hbid) ha hb
        by_cases hon : (st == "ON") = true
        · rw [if_pos hon]
          cases ht : toggle db sw.id true with
          | error e => exact ⟨ha, hb⟩
          | ok db2 =>
            dsimp only
            obtain ⟨hc1, hc2⟩ := hstep true db2 ht
            exact ih db2 _ hc1 hc2
        · rw [if_neg hon]
          by_cases hoff : (st == "OFF") = true
          · rw [if_pos hoff]
            cases ht : toggle db sw.id false with
            | error e => exact ⟨ha, hb⟩
            | ok db2 =>
              dsimp only
              obtain ⟨hc1, hc2⟩ := hstep false db2 ht
              exact ih db2 _ hc1 hc2
          · rw [if_neg hoff]
            exact ⟨ha, hb⟩

lemma updateOuter_frame (db0 : DB) (boards : List String)
    (hnd : (db0.switchs.map (fun s => s.id)).Nodup) (p : Payload) :
    ∀ (success : List DispatchResult), (∀ r ∈ success, r.switchboard_id ∈ boards) →
    ∀ (db : DB) (errs : List String),
      db.switchs.map frameProj = db0.switchs.map frameProj →
      (∀ j : Nat, db.switchs.get? j = db0.switchs.get? j ∨
        ∃ s, db0.switchs.get? j = some s ∧ s.switchboard_id ∈ boards) →
      ((updateOuter db p success errs).1.switchs.map frameProj = db0.switchs.map frameProj ∧
       ∀ j : Nat, (updateOuter db p success errs).1.switchs.get? j = db0.switchs.get? j ∨
        ∃ s, db0.switchs.get? j = some s ∧ s.switchboard_id ∈ boards) := by
  intro success
  induction success with
  | nil => intro _ db errs ha hb; exact ⟨ha, hb⟩
  | cons r rest ih =>
    intro hmem db errs ha hb
    unfold updateOuter
    cases hg : getAssoc p r.switchboard_id with
    | none => exact ⟨ha, hb⟩
    | some switchs =>
      dsimp only
      rcases hu : updateInner db r.switchboard_id switchs errs with ⟨db2, errs2, ab⟩
      have hinner := updateInner_frame db0 boards hnd r.switchboard_id
        (hmem r (List.mem_cons_self _ _)) switchs db errs ha hb
      rw [hu] at hinner
      cases ab with
      | none =>
        dsimp only
        exact ih (fun r2 h2 => hmem r2 (List.mem_cons_of_mem _ h2)) db2 errs2 hinner.1 hinner.2
      | some e =>
        dsimp only
        exact hinner

lemma keys_setNested (p : Payload) (bid nick st : String) :
    (setNested p bid nick st).map (fun e => e.1)
      = if bid ∈ p.map (fun e => e.1) then p.map (fun e => e.1)
        else p.map (fun e => e.1) ++ [bid] := by
  induction p with
  | nil => simp [setNested]
  | cons b rest ih =>
    obtain ⟨b0, inner⟩ := b
    unfold setNested
    by_cases hb : (b0 == bid) = true
    · rw [if_pos hb]
      have hbe : b0 = bid := eq_of_beq hb
      subst hbe
      simp
    · rw [if_neg hb]
      have hne : b0 ≠ bid := fun hc => hb (by rw [hc]; exact beq_self_eq_true bid)
      simp only [List.map_cons, ih]
      by_cases hmem : bid ∈ rest.map (fun e => e.1)
      · rw [if_pos hmem, if_pos (by simp [hmem])]
      · rw [if_neg hmem, if_neg (by simp [hmem, Ne.symm hne])]
        simp

lemma nodupKeys_setNested (p : Payload) (bid nick st : String)
    (h : (p.map (fun e => e.1)).Nodup) :
    ((setNested p bid nick st).map (fun e => e.1)).Nodup := by
  rw [keys_setNested]
  by_cases hmem : bid ∈ p.map (fun e => e.1)
  · rw [if_pos hmem]; exact h
  · rw [if_neg hmem]
    simp [List.nodup_append, h, hmem]

lemma nodupKeys_buildAux (db : DB) (req : List (Int × Bool)) :
    ∀ (acc : Payload) (errs : List String),
      (acc.map (fun e => e.1)).Nodup →
      ((buildAux db req acc errs).1.map (fun e => e.1)).Nodup := by
  induction req with
  | nil => intro acc errs h; exact h
  | cons pair rest ih =>
    obtain ⟨sid, st⟩ := pair
    intro acc errs h
    unfold buildAux
    cases hs : get_switch_by_id db sid with
    | none => dsimp only; exact ih _ _ h
    | some sw =>
      dsimp only
      cases hb : get_switchboard db sw.switchboard_id with
      | error e => dsimp only; exact h
      | ok board =>
        dsimp only
        cases hn : pyGet switchs_nicknames (sw.position - 1) with
        | none => exact h
        | some nick =>
          dsimp only
          exact ih _ _ (nodupKeys_setNested acc board.id nick _ h)

lemma send_ok_fields (t : Transport) (db : DB) (bid : String) (switchs : Inner)
    (r : DispatchResult) (h : send_switchboard_request t db bid switchs = .ok r) :
    r.switchboard_id = bid ∧ r.payload_sent = switchs := by
  unfold send_switchboard_request at h
  cases hg : get_switchboard db bid with
  | error e => rw [hg] at h; dsimp only at h; exact absurd h (by simp)
  | ok board =>
    rw [hg] at h
    dsimp only at h
    cases ht : t board.ip_address switchs with
    | status code =>
      rw [ht] at h
      dsimp only at h
      by_cases hc : 200 ≤ code ∧ code < 300
      · rw [if_pos hc] at h
        injection h with h2
        rw [← h2]
        exact ⟨rfl, rfl⟩
      · rw [if_neg hc] at h
        injection h with h2
        rw [← h2]
        exact ⟨rfl, rfl⟩
    | netErr msg =>
      rw [ht] at h
      dsimp only at h
      injection h with h2
      rw [← h2]
      exact ⟨rfl, rfl⟩

lemma sendAll_correspond (t : Transport) (db : DB) :
    ∀ (p : Payload) (results : List DispatchResult),
      sendAll t db p = .ok results →
      List.Forall₂ (fun (e : String × Inner) (r : DispatchResult) =>
        r.switchboard_id = e.1 ∧ r.payload_sent = e.2) p results := by
  intro p
  induction p with
  | nil =>
    intro results h
    unfold sendAll at h
    injection h with h2
    rw [← h2]
    exact List.Forall₂.nil
  | cons e rest ih =>
    obtain ⟨bid, switchs⟩ := e
    intro results h
    unfold sendAll at h
    cases hs : send_switchboard_request t db bid switchs with
    | error er => rw [hs] at h; dsimp only at h; exact absurd h (by simp)
    | ok r =>
      rw [hs] at h
      dsimp only at h
      cases hr : sendAll t db rest with
      | error er => rw [hr] at h; dsimp only at h; exact absurd h (by simp)
      | ok rs =>
        rw [hr] at h
        dsimp only at h
        injection h with h2
        rw [← h2]
        exact List.Forall₂.cons (send_ok_fields t db bid switchs r hs) (ih rs hr)

/-! The claims. -/

/-- Claim C1: the orchestrator is claimed never to raise for partial
failures, recording policy-violation (locked) errors in the report.  On the
code, a batch naming a locked switch on a reachable switchboard escalates as
an uncaught HTTPException 403: the grouper records the policy error but does
not skip the pair, the entry is dispatched, and reconciliation calls
`switch_crud.toggle`, which raises on the locked switch. -/
theorem C1_locked_switch_escalates :
    process_toggle_request tOK dbLocked [(1, true)]
      = .error (.http 403 "Switch state is locked and cannot be updated.") := rfl

/-- Claim C2: a locked switch is claimed to be skipped by the grouper, its
entry never reaching the payload, and an all-locked batch is claimed to send
no HTTP request.  On the code, the grouper records the policy error but the
locked switch's entry is still inserted, and the dispatcher sends one HTTP
request for the all-locked batch. -/
theorem C2_locked_entry_reaches_payload :
    build_switchs_by_switchboard dbLocked [(1, true)]
      = ([("b1", [("relay1", "ON")])],
         ["Switch with id 1 is locked and cannot be toggled."], none)
  ∧ send_multiple_switchboard_requests tOK dbLocked [("b1", [("relay1", "ON")])]
      = .ok ([{ switchboard_id := "b1", status := "success", error := none,
                payload_sent := [("relay1", "ON")] }], []) :=
  ⟨rfl, rfl⟩

/-- Claim C3: the report is claimed to hold the error strings of the
grouping, dispatch and reconciliation stages.  On the code: a dispatch
failure is appended to the report as a whole result dict, not a string; and
a reconciliation error (here produced because the position-0 switch was
grouped under nickname relay8, which resolves back to position 8, absent) is
computed by `update_database` but discarded by the orchestrator, whose
report is empty. -/
theorem C3_report_shape_diverges :
    process_toggle_request tBoom dbOne [(1, true)] = .ok (dbOne, [ErrEntry.dict failedB1])
  ∧ (∀ s : String, ErrEntry.dict failedB1 ≠ ErrEntry.str s)
  ∧ process_toggle_request tOK dbPos0 [(1, true)] = .ok (dbPos0, [])
  ∧ update_database dbPos0 [("b1", [("relay8", "ON")])] [successB1relay8]
      = (dbPos0,
         ["Switch associated with nickname relay8 associated with switchboard b1 not found in the database."],
         none) :=
  ⟨rfl, fun _ h => ErrEntry.noConfusion h, rfl, rfl⟩

/-- Claim C5: a switchboard id in the payload that no longer resolves is
claimed to yield an immediately failed outcome without raising.  On the
code, `switchboard_crud.get_switchboard` raises HTTPException 404 (its
`is None` branch in the dispatcher is dead code), so the dispatch task
raises; the result does not depend on the transport, so no network call is
made. -/
theorem C5_unresolved_switchboard_raises :
    ∀ t : Transport,
      send_switchboard_request t dbOne "ghost" [("relay1", "ON")]
        = .error (.http 404 "Switchboard not found") :=
  fun _ => rfl

/-- Claim C6: a pair whose switch exists but whose switchboard is absent is
claimed to produce an error string and be skipped, the batch continuing.  On
the code, `get_switchboard` raises HTTPException 404, so the batch aborts:
no error string is recorded for the pair and the later valid pair (switch 2)
is never processed. -/
theorem C6_missing_switchboard_aborts_batch :
    build_switchs_by_switchboard dbGhost [(1, true), (2, true)]
      = ([], [], some (.http 404 "Switchboard not found")) := rfl

/-- Claim C8 counterexample: position 0 is outside 1..8, yet the grouper
does not raise: Python's negative indexing maps `switchs_nicknames[-1]` to
"relay8" and the batch completes normally. -/
theorem C8_counterexample_position_zero :
    pyGet switchs_nicknames ((0 : Int) - 1) = some "relay8"
  ∧ build_switchs_by_switchboard dbPos0 [(1, true)]
      = ([("b1", [("relay8", "ON")])], [], none) :=
  ⟨rfl, rfl⟩

/-- Claim C8, amended: the grouper raises an uncaught IndexError only for
positions greater than 8 or less than -7; for positions in -7..0, Python's
negative indexing silently resolves the pair to a nickname from the end of
the table and no error is raised. -/
theorem C8_amended_out_of_range (db : DB) (switch_id : Int) (state : Bool)
    (rest : List (Int × Bool)) (sw : Switch) (board : Switchboard)
    (h1 : get_switch_by_id db switch_id = some sw)
    (h2 : get_switchboard db sw.switchboard_id = Except.ok board)
    (h3 : 8 < sw.position ∨ sw.position < -7) :
    (build_switchs_by_switchboard db ((switch_id, state) :: rest)).2.2
      = some PyErr.indexError
  ∧ ∀ p : Int, -7 ≤ p → p ≤ 0 →
      pyGet switchs_nicknames (p - 1) = switchs_nicknames.get? (p + 7).toNat := by
  constructor
  · unfold build_switchs_by_switchboard
    simp only [buildAux, h1, h2, pyGet_nicknames_none sw.position h3]
  · exact fun p hp1 hp2 => pyGet_nicknames_neg p hp1 hp2

/-- Witness for the amended C8 theorem at the concrete store dbPos9. -/
theorem C8_amended_out_of_range_witness :
    (build_switchs_by_switchboard dbPos9 [(1, true)]).2.2 = some PyErr.indexError :=
  (C8_amended_out_of_range dbPos9 1 true []
    { id := 1, name := "s1", position := 9, state := false,
      locked := false, switchboard_id := "b1" }
    { id := "b1", name := "B1", ip_address := "10.0.0.1" }
    rfl rfl (Or.inl (by decide))).1

theorem C4_reconciler_frame :
    (∀ (db : DB) (p : Payload) (success : List DispatchResult) (j : Nat) (sw : Switch),
        (db.switchs.map (fun s => s.id)).Nodup →
        db.switchs.get? j = some sw →
        sw.switchboard_id ∉ success.map (fun r => r.switchboard_id) →
        (update_database db p success).1.switchs.get? j = some sw)
  ∧ update_database dbAB payloadAB [successA] = (dbABafter, [], none) := by
  constructor
  · intro db p success j sw hnd hj hnot
    have hmem : ∀ r ∈ success, r.switchboard_id ∈ success.map (fun r => r.switchboard_id) :=
      fun r hr => List.mem_map_of_mem _ hr
    have h := (updateOuter_frame db (success.map (fun r => r.switchboard_id)) hnd p
      success hmem db [] rfl (fun _ => Or.inl rfl)).2 j
    unfold update_database
    rcases h with h | ⟨s, hs, hsb⟩
    · rw [h]; exact hj
    · exfalso
      rw [hj] at hs
      injection hs with hs2
      rw [hs2] at hnot
      exact hnot hsb
  · rfl

theorem C4_reconciler_frame_witness :
    (update_database dbAB payloadAB [successA]).1.switchs.get? 1
      = some { id := 2, name := "sB", position := 1, state := false,
               locked := false, switchboard_id := "B" } :=
  C4_reconciler_frame.1 dbAB payloadAB [successA] 1
    { id := 2, name := "sB", position := 1, state := false,
      locked := false, switchboard_id := "B" }
    (by decide) rfl (by decide)

theorem C7_one_post_per_switchboard :
    (∀ (db : DB) (request : List (Int × Bool)),
        ((build_switchs_by_switchboard db request).1.map (fun e => e.1)).Nodup)
  ∧ (∀ (t : Transport) (db : DB) (p : Payload) (results : List DispatchResult),
        sendAll t db p = .ok results →
        List.Forall₂ (fun (e : String × Inner) (r : DispatchResult) =>
          r.switchboard_id = e.1 ∧ r.payload_sent = e.2) p results)
  ∧ build_switchs_by_switchboard dbPair [(1, true), (2, false)]
      = ([("b1", [("relay1", "ON"), ("relay2", "OFF")])], [], none)
  ∧ build_switchs_by_switchboard dbDup [(1, true), (2, false)]
      = ([("b1", [("relay1", "OFF")])], [], none) := by
  refine ⟨?_, ?_, rfl, rfl⟩
  · intro db request
    exact nodupKeys_buildAux db request [] [] (by simp)
  · intro t db p results h
    exact sendAll_correspond t db p results h

theorem C7_one_post_per_switchboard_witness :
    List.Forall₂ (fun (e : String × Inner) (r : DispatchResult) =>
        r.switchboard_id = e.1 ∧ r.payload_sent = e.2)
      [("b1", [("relay1", "ON"), ("relay2", "OFF")])]
      [{ switchboard_id := "b1", status := "success", error := none,
         payload_sent := [("relay1", "ON"), ("relay2", "OFF")] }] :=
  C7_one_post_per_switchboard.2.1 tOK dbPair
    [("b1", [("relay1", "ON"), ("relay2", "OFF")])]
    [{ switchboard_id := "b1", status := "success", error := none,
       payload_sent := [("relay1", "ON"), ("relay2", "OFF")] }]
    rfl

theorem C9_toggle_idempotent (t : Transport) (db : DB) (sw : Switch) (board : Switchboard)
    (h1 : get_switch_by_id db sw.id = some sw)
    (h2 : sw.locked = false)
    (h3 : get_switchboard db sw.switchboard_id = Except.ok board)
    (h4 : 1 ≤ sw.position) (h5 : sw.position ≤ 8)
    (h6 : get_switch_by_pos db board.id sw.position = some sw)
    (h7 : ∀ inner, t board.ip_address inner = TransportOutcome.status 200) :
    process_toggle_request t db [(sw.id, sw.state)] = .ok (db, [])
  ∧ processTwice t db [(sw.id, sw.state)] = .ok (db, []) := by
  obtain ⟨nick, hn1, hn2, hn3⟩ := nick_roundtrip sw.position h4 h5
  have hbid : board.id = sw.switchboard_id := by
    unfold get_switchboard at h3
    cases hfb : db.switchboards.find? (fun b => b.id == sw.switchboard_id) with
    | none => rw [hfb] at h3; exact absurd h3 (by simp)
    | some b =>
      rw [hfb] at h3
      have hb : b = board := by injection h3
      have := List.find?_some hfb
      rw [hb] at this
      exact eq_of_beq this
  have hbuild : build_switchs_by_switchboard db [(sw.id, sw.state)]
      = ([(board.id, [(nick, if sw.state then "ON" else "OFF")])], [], none) := by
    unfold build_switchs_by_switchboard
    simp only [buildAux, h1, h2, h3, hn1, setNested, Bool.false_eq_true, if_false]
  have hsend : send_multiple_switchboard_requests t db
        [(board.id, [(nick, if sw.state then "ON" else "OFF")])]
      = .ok ([{ switchboard_id := board.id, status := "success", error := none,
                payload_sent := [(nick, if sw.state then "ON" else "OFF")] }], []) := by
    unfold send_multiple_switchboard_requests sendAll send_switchboard_request
    rw [hbid, h3]
    simp only [h7]
    norm_num
    rfl
  have htoggle : toggle db sw.id sw.state = .ok db := by
    unfold toggle
    unfold get_switch_by_id at h1
    simp only [h1, h2, setStateFirst_self db.switchs sw.id sw h1, if_true]
  have hga : getAssoc [(board.id, [(nick, if sw.state then "ON" else "OFF")])] board.id
      = some [(nick, if sw.state then "ON" else "OFF")] := by
    simp [getAssoc]
  have hupd : update_database db [(board.id, [(nick, if sw.state then "ON" else "OFF")])]
        [{ switchboard_id := board.id, status := "success", error := none,
           payload_sent := [(nick, if sw.state then "ON" else "OFF")] }]
      = (db, [], none) := by
    unfold update_database updateOuter
    simp only [hga]
    unfold updateInner
    simp only [hn2, hn3, h6]
    cases hst : sw.state with
    | true =>
      rw [hst] at htoggle
      simp only [if_true, htoggle]
      rfl
    | false =>
      rw [hst] at htoggle
      simp only [if_false, htoggle]
      rfl
  have hrun : process_toggle_request t db [(sw.id, sw.state)] = .ok (db, []) := by
    unfold process_toggle_request
    simp only [hbuild, hsend, hupd]
    rfl
  refine ⟨hrun, ?_⟩
  unfold processTwice
  simp only [hrun]

theorem C10_grouper_values_on_off :
    (∀ (db : DB) (request : List (Int × Bool)),
        PayloadOnOff (build_switchs_by_switchboard db request).1)
  ∧ (∀ (db : DB) (request : List (Int × Bool)) (success : List DispatchResult),
        (update_database db (build_switchs_by_switchboard db request).1 success).2.2
          ≠ some PyErr.typeError)
  ∧ (∀ (db : DB) (bid nick s : String) (idx : Nat) (sw : Switch) (r : DispatchResult),
        r.switchboard_id = bid →
        pyIndex switchs_nicknames nick = some idx →
        get_switch_by_pos db bid ((idx : Int) + 1) = some sw →
        sw.locked = false →
        get_switch_by_id db sw.id = some sw →
        (s = "ON" ∨ s = "OFF") →
        get_switch_by_id (update_database db [(bid, [(nick, s)])] [r]).1 sw.id
          = some { sw with state := s == "ON" }) := by
  refine ⟨?_, ?_, ?_⟩
  · intro db request
    exact payloadOnOff_buildAux db request [] [] (by intro e he; simp at he)
  · intro db request success
    exact updateOuter_no_typeError _ (payloadOnOff_buildAux db request [] [] (by intro e he; simp at he)) success db []
  · intro db bid nick s idx sw r hr hidx hpos hlock hid hs
    have hga : getAssoc [(bid, [(nick, s)])] bid = some [(nick, s)] := by simp [getAssoc]
    unfold get_switch_by_id at hid
    unfold update_database updateOuter
    rw [hr]
    simp only [hga]
    unfold updateInner
    simp only [hidx, hpos]
    rcases hs with hs | hs
    · subst hs
      rw [if_pos (show (("ON" : String) == "ON") = true from rfl)]
      have ht : toggle db sw.id true = .ok { db with switchs := setStateFirst db.switchs sw.id true } := by
        unfold toggle
        simp only [hid, hlock, if_true]
      simp only [ht]
      unfold updateOuter updateInner
      unfold get_switch_by_id
      exact find?_setStateFirst db.switchs sw.id true sw hid
    · subst hs
      rw [if_neg (show ¬ (("OFF" : String) == "ON") = true from by decide),
          if_pos (show (("OFF" : String) == "OFF") = true from rfl)]
      have ht : toggle db sw.id false = .ok { db with switchs := setStateFirst db.switchs sw.id false } := by
        unfold toggle
        simp only [hid, hlock, if_true]
      simp only [ht]
      unfold updateOuter updateInner
      unfold get_switch_by_id
      exact find?_setStateFirst db.switchs sw.id false sw hid

/-- Witness for C9 at the concrete store dbOne with an always-200 transport. -/
theorem C9_toggle_idempotent_witness :
    process_toggle_request tOK dbOne [(1, false)] = .ok (dbOne, [])
  ∧ processTwice tOK dbOne [(1, false)] = .ok (dbOne, []) :=
  C9_toggle_idempotent tOK dbOne
    { id := 1, name := "s1", position := 1, state := false,
      locked := false, switchboard_id := "b1" }
    { id := "b1", name := "B1", ip_address := "10.0.0.1" }
    rfl rfl rfl (by decide) (by decide) rfl (fun _ => rfl)

/-- Witness for C10 at the concrete store dbOne: reconciling relay1 "ON" sets
the switch state to true. -/
theorem C10_grouper_values_on_off_witness :
    get_switch_by_id (update_database dbOne [("b1", [("relay1", "ON")])] [successB1on]).1 1
      = some { id := 1, name := "s1", position := 1, state := true,
               locked := false, switchboard_id := "b1" } :=
  C10_grouper_values_on_off.2.2 dbOne "b1" "relay1" "ON" 0
    { id := 1, name := "s1", position := 1, state := false,
      locked := false, switchboard_id := "b1" }
    successB1on rfl rfl rfl rfl rfl (Or.inl rfl)

end Rhapsody
